import Mathlib

/-!
# Verification of the multi-agent orchestrator against its specification

Shallow embedding, in Lean 4, of the routing, memory, planning and webhook
logic of the `multi-agent-orchestrator` repository, together with theorems
settling the specification claims about those components.

Embedding conventions:
* Python dictionaries keyed by strings become association lists
  (`List (String × α)`) with last-write-wins update semantics.
* Python `float` timestamps/scores become `Rat` (exact rational arithmetic);
  integer fields become `Int`/`Nat`.
* `None`-able fields become `Option`; Python truthiness of strings/options is
  made explicit (`none` and `""` are falsy).
* Fallible code returns `Except String α` (the message mirrors the Python
  exception message).
* External library calls (HTTP transport, HMAC) are parameters of the embedded
  functions; everything written in the repository itself is translated.
-/

namespace Orchestrator

/-! ## Association-list helpers (Python `dict` semantics) -/

/-- Lookup in an association list (first binding wins; our update keeps keys
unique so this matches Python `dict` access). -/
def alGet {α : Type} (l : List (String × α)) (k : String) : Option α :=
  match l with
  | [] => none
  | (k', v) :: rest => if k' = k then some v else alGet rest k

/-- `d[k] = v` on an association list: replace the binding in place, or append
a fresh binding at the end (Python dicts preserve insertion order). -/
def alSet {α : Type} (l : List (String × α)) (k : String) (v : α) : List (String × α) :=
  match l with
  | [] => [(k, v)]
  | (k', v') :: rest => if k' = k then (k, v) :: rest else (k', v') :: alSet rest k v

/-- `del d[k]` on an association list. -/
def alDel {α : Type} (l : List (String × α)) (k : String) : List (String × α) :=
  match l with
  | [] => []
  | (k', v') :: rest => if k' = k then rest else (k', v') :: alDel rest k

/-! ## Short-term memory (src/langgraph/memory/short_term.py)

`ShortTermMemory` keeps, per session id, a mapping from key to `MemoryEntry`.
Time is passed explicitly (`now : Rat`, seconds) where the Python code reads
`datetime.utcnow()`. -/

/-- `MemoryEntry` (src/shared/models/agent_state.py): the stored record.
`value` is kept generic; `timestamp` is the creation instant in seconds. -/
structure MemoryEntry (V : Type) where
  key : String
  value : V
  timestamp : Rat
  ttl : Option Int
  deriving Repr, DecidableEq

/-- The whole store: session id → (key → entry). -/
def STMem (V : Type) : Type := List (String × List (String × MemoryEntry V))

/-- Python truthiness of the optional `ttl` field (`if entry.ttl:`). -/
def ttlTruthy (t : Option Int) : Bool :=
  match t with
  | none => false
  | some n => n ≠ 0

/-- An entry is past its time-to-live at instant `now`
(`age = now - entry.timestamp; age > entry.ttl`). -/
def entryExpired {V : Type} (e : MemoryEntry V) (now : Rat) : Bool :=
  ttlTruthy e.ttl && decide ((now - e.timestamp) > ((e.ttl.getD 0 : Int) : Rat))

/-- `ShortTermMemory.store`: always overwrites; the effective ttl is
`ttl or self.default_ttl` (Python `or`: `None` and `0` fall back). -/
def stmStore {V : Type} (m : STMem V) (sessionId key : String) (value : V)
    (ttl : Option Int) (defaultTtl : Int) (now : Rat) : STMem V :=
  let bucket := (alGet m sessionId).getD []
  let effTtl : Int :=
    match ttl with
    | none => defaultTtl
    | some t => if t = 0 then defaultTtl else t
  alSet m sessionId (alSet bucket key ⟨key, value, now, some effTtl⟩)

/-- `ShortTermMemory.retrieve`: returns the value, or `none` when the key is
missing or the entry expired (in which case the entry is deleted — lazy
deletion on read). Returns the possibly-updated store alongside. -/
def stmRetrieve {V : Type} (m : STMem V) (sessionId key : String) (now : Rat) :
    Option V × STMem V :=
  match alGet m sessionId with
  | none => (none, m)
  | some bucket =>
    match alGet bucket key with
    | none => (none, m)
    | some e =>
      if entryExpired e now then
        (none, alSet m sessionId (alDel bucket key))
      else
        (some e.value, m)

/-- `ShortTermMemory._clean_expired`: drop every expired entry of a session. -/
def stmCleanExpired {V : Type} (m : STMem V) (sessionId : String) (now : Rat) : STMem V :=
  match alGet m sessionId with
  | none => m
  | some bucket =>
    alSet m sessionId (bucket.filter (fun kv => !(entryExpired kv.2 now)))

/-- `ShortTermMemory.get_all`: first purge expired entries, then return the
remaining key → value mapping (and the purged store). -/
def stmGetAll {V : Type} (m : STMem V) (sessionId : String) (now : Rat) :
    List (String × V) × STMem V :=
  match alGet m sessionId with
  | none => ([], m)
  | some _ =>
    let m' := stmCleanExpired m sessionId now
    (((alGet m' sessionId).getD []).map (fun kv => (kv.1, kv.2.value)), m')

/-! Helper lemmas about association lists. -/

theorem alGet_alSet_same {α : Type} (l : List (String × α)) (k : String) (v : α) :
    alGet (alSet l k v) k = some v := by
  induction l with
  | nil => simp [alSet, alGet]
  | cons hd tl ih =>
    by_cases h : hd.1 = k
    · simp [alSet, alGet, h]
    · simp [alSet, alGet, h, ih]

theorem alGet_eq_none_of_not_mem {α : Type} (l : List (String × α)) (k : String)
    (h : k ∉ l.map Prod.fst) : alGet l k = none := by
  induction l with
  | nil => rfl
  | cons hd tl ih =>
    obtain ⟨k', v'⟩ := hd
    simp only [List.map_cons, List.mem_cons] at h
    push_neg at h
    have hne : ¬ k' = k := fun hc => h.1 hc.symm
    simp only [alGet, if_neg hne]
    exact ih h.2

theorem mem_keys_alSet {α : Type} (l : List (String × α)) (k : String) (v : α)
    (x : String) (h : x ∈ (alSet l k v).map Prod.fst) :
    x ∈ l.map Prod.fst ∨ x = k := by
  induction l with
  | nil =>
    simp only [alSet, List.map_cons, List.map_nil, List.mem_cons,
      List.not_mem_nil, or_false] at h
    exact Or.inr h
  | cons hd tl ih =>
    obtain ⟨k', v'⟩ := hd
    by_cases hk : k' = k
    · simp only [alSet, if_pos hk, List.map_cons, List.mem_cons] at h
      simp only [List.map_cons, List.mem_cons]
      rcases h with h | h
      · exact Or.inr h
      · exact Or.inl (Or.inr h)
    · simp only [alSet, if_neg hk, List.map_cons, List.mem_cons] at h
      simp only [List.map_cons, List.mem_cons]
      rcases h with h | h
      · exact Or.inl (Or.inl h)
      · rcases ih h with h' | h'
        · exact Or.inl (Or.inr h')
        · exact Or.inr h'

theorem nodup_keys_alSet {α : Type} (l : List (String × α)) (k : String) (v : α)
    (h : (l.map Prod.fst).Nodup) : ((alSet l k v).map Prod.fst).Nodup := by
  induction l with
  | nil => simp [alSet]
  | cons hd tl ih =>
    obtain ⟨k', v'⟩ := hd
    simp only [List.map_cons, List.nodup_cons] at h
    by_cases hk : k' = k
    · simp only [alSet, if_pos hk, List.map_cons, List.nodup_cons]
      exact ⟨hk ▸ h.1, h.2⟩
    · simp only [alSet, if_neg hk, List.map_cons, List.nodup_cons]
      refine ⟨fun hmem => ?_, ih h.2⟩
      rcases mem_keys_alSet tl k v k' hmem with h' | h'
      · exact h.1 h'
      · exact hk h'

theorem alGet_alDel_of_nodup {α : Type} (l : List (String × α)) (k : String)
    (h : (l.map Prod.fst).Nodup) : alGet (alDel l k) k = none := by
  induction l with
  | nil => rfl
  | cons hd tl ih =>
    obtain ⟨k', v'⟩ := hd
    simp only [List.map_cons, List.nodup_cons] at h
    by_cases hk : k' = k
    · simp only [alDel, if_pos hk]
      exact alGet_eq_none_of_not_mem tl k (hk ▸ h.1)
    · simp only [alDel, if_neg hk, alGet]
      exact ih h.2

theorem alGet_filter_none {α : Type} (l : List (String × α)) (k : String)
    (p : String × α → Bool) (e : α) (h : (l.map Prod.fst).Nodup)
    (hget : alGet l k = some e) (hp : p (k, e) = false) :
    alGet (l.filter p) k = none := by
  induction l with
  | nil => simp [alGet] at hget
  | cons hd tl ih =>
    obtain ⟨k', v'⟩ := hd
    simp only [List.map_cons, List.nodup_cons] at h
    by_cases hk : k' = k
    · simp only [alGet, if_pos hk, Option.some.injEq] at hget
      subst hk
      subst hget
      simp only [List.filter_cons, hp, Bool.false_eq_true, if_false]
      apply alGet_eq_none_of_not_mem
      intro hmem
      obtain ⟨q, hq, hq1⟩ := List.mem_map.mp hmem
      exact h.1 (List.mem_map.mpr ⟨q, (List.mem_filter.mp hq).1, hq1⟩)
    · simp only [alGet, if_neg hk] at hget
      simp only [List.filter_cons]
      cases hpv : p (k', v') with
      | true =>
        simp only [if_true]
        simp only [alGet, if_neg hk]
        exact ih h.2 hget
      | false =>
        simp only [Bool.false_eq_true, if_false]
        exact ih h.2 hget

theorem alGet_map_value {α β : Type} (l : List (String × α)) (k : String)
    (g : α → β) :
    alGet (l.map (fun kv => (kv.1, g kv.2))) k = (alGet l k).map g := by
  induction l with
  | nil => rfl
  | cons hd tl ih =>
    by_cases hk : hd.1 = k
    · simp [alGet, hk]
    · simp [alGet, hk, ih]

end Orchestrator

/-- C5: a short-term-memory entry stored with a positive ttl is lazily expired:
once its age exceeds the ttl, `retrieve` returns an absent result and deletes
the entry from the session's mapping, `get_all` purges it, and an unexpired
entry's value is returned unchanged. -/
theorem shortTermMemory_ttl_lazy_expiry {V : Type} (m : Orchestrator.STMem V)
    (sid k : String) (v : V) (t defaultTtl : Int) (now nowLate nowEarly : Rat)
    (hnd : (((Orchestrator.alGet m sid).getD []).map Prod.fst).Nodup)
    (ht : 0 < t) (hexp : nowLate - now > (t : Rat))
    (hfresh : nowEarly - now ≤ (t : Rat)) :
    let m1 := Orchestrator.stmStore m sid k v (some t) defaultTtl now
    (Orchestrator.stmRetrieve m1 sid k nowLate).1 = none
    ∧ Orchestrator.alGet
        ((Orchestrator.alGet (Orchestrator.stmRetrieve m1 sid k nowLate).2 sid).getD []) k
        = none
    ∧ Orchestrator.alGet (Orchestrator.stmGetAll m1 sid nowLate).1 k = none
    ∧ (Orchestrator.stmRetrieve m1 sid k nowEarly).1 = some v := by
  intro m1
  have htz : ¬ t = 0 := by omega
  set b0 := (Orchestrator.alGet m sid).getD [] with hb0
  set e : Orchestrator.MemoryEntry V := ⟨k, v, now, some t⟩ with he
  have hm1 : m1 = Orchestrator.alSet m sid (Orchestrator.alSet b0 k e) := by
    simp only [m1, Orchestrator.stmStore, he, hb0, if_neg htz]
  set b1 := Orchestrator.alSet b0 k e with hb1
  have hget_sid : Orchestrator.alGet m1 sid = some b1 := by
    rw [hm1]; exact Orchestrator.alGet_alSet_same m sid b1
  have hget_k : Orchestrator.alGet b1 k = some e :=
    Orchestrator.alGet_alSet_same b0 k e
  have hnd1 : (b1.map Prod.fst).Nodup := Orchestrator.nodup_keys_alSet b0 k e hnd
  have hexp_true : Orchestrator.entryExpired e nowLate = true := by
    simp only [Orchestrator.entryExpired, Orchestrator.ttlTruthy, he,
      Option.getD_some, Bool.and_eq_true, decide_eq_true_eq]
    exact ⟨by simpa using htz, hexp⟩
  have hexp_false : Orchestrator.entryExpired e nowEarly = false := by
    simp only [Orchestrator.entryExpired, Orchestrator.ttlTruthy, he,
      Option.getD_some, Bool.and_eq_false_iff, decide_eq_false_iff_not]
    right
    exact not_lt.mpr hfresh
  refine ⟨?_, ?_, ?_, ?_⟩
  · simp only [Orchestrator.stmRetrieve, hget_sid, hget_k, hexp_true, if_true]
  · simp only [Orchestrator.stmRetrieve, hget_sid, hget_k, hexp_true, if_true]
    rw [Orchestrator.alGet_alSet_same m1 sid, Option.getD_some]
    exact Orchestrator.alGet_alDel_of_nodup b1 k hnd1
  · simp only [Orchestrator.stmGetAll, hget_sid, Orchestrator.stmCleanExpired]
    rw [Orchestrator.alGet_alSet_same m1 sid, Option.getD_some]
    have hmap :
        (b1.filter (fun kv => !(Orchestrator.entryExpired kv.2 nowLate))).map
            (fun kv => (kv.1, kv.2.value))
          = (b1.filter (fun kv => !(Orchestrator.entryExpired kv.2 nowLate))).map
            (fun kv => (kv.1, (fun x : Orchestrator.MemoryEntry V => x.value) kv.2)) := rfl
    rw [hmap, Orchestrator.alGet_map_value]
    rw [Orchestrator.alGet_filter_none b1 k _ e hnd1 hget_k (by simp [hexp_true])]
    rfl
  · simp only [Orchestrator.stmRetrieve, hget_sid, hget_k, hexp_false]
    simp

/-- Witness for C5 at concrete inputs: store `"v"` under ttl 1 at time 0 in an
empty store; at time 2 the entry is expired and purged, at time 1 it is
returned unchanged. -/
theorem shortTermMemory_ttl_lazy_expiry_witness :
    (((Orchestrator.alGet ([] : Orchestrator.STMem String) "s").getD []).map
        Prod.fst).Nodup
    ∧ (0 : Int) < 1 ∧ ((2 : Rat) - 0 > ((1 : Int) : Rat)) ∧ ((1 : Rat) - 0 ≤ ((1 : Int) : Rat))
    ∧ (let m1 := Orchestrator.stmStore ([] : Orchestrator.STMem String) "s" "k" "v"
          (some 1) 3600 0
       (Orchestrator.stmRetrieve m1 "s" "k" 2).1 = none
       ∧ Orchestrator.alGet
           ((Orchestrator.alGet (Orchestrator.stmRetrieve m1 "s" "k" 2).2 "s").getD []) "k"
           = none
       ∧ Orchestrator.alGet (Orchestrator.stmGetAll m1 "s" 2).1 "k" = none
       ∧ (Orchestrator.stmRetrieve m1 "s" "k" 1).1 = some "v") :=
  ⟨by decide, by decide, by norm_num, by norm_num,
    shortTermMemory_ttl_lazy_expiry [] "s" "k" "v" 1 3600 0 2 1
      (by decide) (by decide) (by norm_num) (by norm_num)⟩


namespace Orchestrator

/-! ## String helpers with Python semantics

Defined over `List Char` so that the kernel can evaluate them on concrete
inputs (`String.splitOn`/`trim`/`toLower` do not reduce in the kernel). -/

/-- `isPrefixL pat l`: `pat` is a prefix of `l`. -/
def isPrefixL : List Char → List Char → Bool
  | [], _ => true
  | _ :: _, [] => false
  | p :: ps, t :: ts => p = t && isPrefixL ps ts

/-- `containsL pat l`: `pat` occurs as a contiguous sublist of `l`. -/
def containsL (pat : List Char) : List Char → Bool
  | [] => isPrefixL pat []
  | c :: ts => isPrefixL pat (c :: ts) || containsL pat ts

/-- Python substring test (`pat in s`); the empty pattern is always contained. -/
def strContains (s pat : String) : Bool :=
  containsL pat.toList s.toList

/-- Python `str.lower()` (ASCII case mapping suffices for this repository). -/
def pyLower (s : String) : String :=
  String.mk (s.toList.map Char.toLower)

/-- Whitespace per Python `str.strip()` (space, tab, newline, CR, VT, FF). -/
def isPyWS (c : Char) : Bool :=
  c = ' ' || c = '\t' || c = '\n' || c = '\r' || c = '\x0b' || c = '\x0c'

/-- Python `str.strip()`: drop whitespace from both ends. -/
def pyStrip (s : String) : String :=
  String.mk (((s.toList.dropWhile isPyWS).reverse.dropWhile isPyWS).reverse)

/-! ## Agent router (src/langgraph/reasoning/router.py)

`AgentRouter.route_request` decides which configured Snowflake Cortex agent
object name(s) to call, from two fixed keyword lists.  Settings values are
passed explicitly. -/

/-- `AgentRouter.analyst_keywords`. -/
def analyst_keywords : List String :=
  ["query", "sql", "table", "data", "database", "analyze",
   "report", "statistics", "aggregate", "sum", "count", "average"]

/-- `AgentRouter.search_keywords`. -/
def search_keywords : List String :=
  ["search", "find", "document", "pdf", "ppt", "presentation",
   "file", "content", "text", "unstructured"]

/-- `AgentRouter._score_analyst_query`: `matches / len(keywords) * 2.0`,
capped at 1. -/
def score_analyst_query (query : String) : Rat :=
  let nMatch := (analyst_keywords.filter (fun kw => strContains query kw)).length
  min ((nMatch : Rat) / (analyst_keywords.length : Rat) * 2) 1

/-- `AgentRouter._score_search_query`. -/
def score_search_query (query : String) : Rat :=
  let nMatch := (search_keywords.filter (fun kw => strContains query kw)).length
  min ((nMatch : Rat) / (search_keywords.length : Rat) * 2) 1

/-- Python truthiness of an optional string (`None` and `""` are falsy). -/
def optTruthy (o : Option String) : Bool :=
  match o with
  | none => false
  | some s => s ≠ ""

/-- Python `a or b` on optional strings. -/
def pyOrStr (a b : Option String) : Option String :=
  if optTruthy a then a else b

/-- The Snowflake settings fields read by the router
(src/shared/config/settings.py). -/
structure SnowflakeAgentSettings where
  cortex_agent_name_analyst : Option String
  cortex_agent_name_search : Option String
  cortex_agent_name_combined : Option String
  cortex_agent_name : Option String
  deriving Repr, DecidableEq

/-- The routing-decision dictionary returned by `route_request`; the
`scores` key is present only on the keyword-scoring path. -/
structure RouteResult where
  agents_to_call : List String
  routing_reason : String
  confidence : Rat
  scores : Option (Rat × Rat)
  deriving Repr, DecidableEq

/-- Format a score the way Python renders `f"{score:.2f}"`
(two decimal places; scores here are non-negative). -/
def formatScore2 (q : Rat) : String :=
  let n : Int := ⌊q * 100 + 1/2⌋
  let ip := n / 100
  let fp := n % 100
  let fps := if fp < 10 then "0" ++ toString fp else toString fp
  toString ip ++ "." ++ fps

/-- The explicit-`agent_preference` block of `route_request`
(src/langgraph/reasoning/router.py:66-92): exact agent-object-name match
first, then the `analyst`/`search`/`combined` keyword fallbacks;
`none` means fall through to keyword scoring. -/
def agent_preference_route (st : SnowflakeAgentSettings) (ap : String) :
    Option RouteResult :=
  let analyst_agent := st.cortex_agent_name_analyst
  let search_agent := st.cortex_agent_name_search
  let combined_agent := pyOrStr st.cortex_agent_name_combined st.cortex_agent_name
  if ap = "" then none else
  let pref := pyStrip ap
  if analyst_agent = some pref ∨ search_agent = some pref
      ∨ combined_agent = some pref then
    some ⟨[pref], "Explicit agent preference (agent object): " ++ pref, 1, none⟩
  else if strContains (pyLower pref) "analyst" && optTruthy analyst_agent then
    some ⟨[analyst_agent.getD ""], "Explicit agent preference: analyst", 1, none⟩
  else if strContains (pyLower pref) "search" && optTruthy search_agent then
    some ⟨[search_agent.getD ""], "Explicit agent preference: search", 1, none⟩
  else if strContains (pyLower pref) "combined" && optTruthy combined_agent then
    some ⟨[combined_agent.getD ""], "Explicit agent preference: combined", 1, none⟩
  else none

/-- The keyword-scoring decision of `route_request`
(src/langgraph/reasoning/router.py:94-138): score both keyword lists, apply
the `context["data_type"]` bonus, then pick a single specialized agent, the
combined agent, or all available agents. -/
def keyword_score_route (st : SnowflakeAgentSettings) (query_lower : String)
    (context : Option (List (String × String))) : RouteResult :=
  let analyst_agent := st.cortex_agent_name_analyst
  let search_agent := st.cortex_agent_name_search
  let combined_agent := pyOrStr st.cortex_agent_name_combined st.cortex_agent_name
  let dataType : Option String :=
    match context with
    | none => none
    | some ctx => if ctx = [] then none else alGet ctx "data_type"
  let analyst_score :=
    (if dataType = some "structured" then (1:Rat)/2 else 0) + score_analyst_query query_lower
  let search_score :=
    (if dataType = some "unstructured" then (1:Rat)/2 else 0) + score_search_query query_lower
  if analyst_score > search_score ∧ analyst_score > 3/10
      ∧ optTruthy analyst_agent then
    ⟨[analyst_agent.getD ""],
      "Structured intent detected; calling analyst agent (score: "
        ++ formatScore2 analyst_score ++ ")",
      min analyst_score 1, some (analyst_score, search_score)⟩
  else if search_score > analyst_score ∧ search_score > 3/10
      ∧ optTruthy search_agent then
    ⟨[search_agent.getD ""],
      "Unstructured intent detected; calling search agent (score: "
        ++ formatScore2 search_score ++ ")",
      min search_score 1, some (analyst_score, search_score)⟩
  else if optTruthy combined_agent then
    ⟨[combined_agent.getD ""], "Ambiguous intent; calling combined agent",
      1/2, some (analyst_score, search_score)⟩
  else
    ⟨(if optTruthy analyst_agent then [analyst_agent.getD ""] else [])
        ++ (if optTruthy search_agent then [search_agent.getD ""] else []),
      "Ambiguous intent; calling multiple agents",
      1/2, some (analyst_score, search_score)⟩

/-- `AgentRouter.route_request` (src/langgraph/reasoning/router.py:31-142):
configuration check, explicit-preference short circuit, then keyword scoring.
The `AgentRoutingError` raised when no agent object is configured is
re-wrapped by the surrounding `except` clause. -/
def route_request (st : SnowflakeAgentSettings) (query : String)
    (context : Option (List (String × String)))
    (agent_preference : Option String) : Except String RouteResult :=
  if !optTruthy (pyOrStr st.cortex_agent_name_combined st.cortex_agent_name)
      && !optTruthy st.cortex_agent_name_analyst
      && !optTruthy st.cortex_agent_name_search then
    .error ("Failed to route request: No Snowflake agent objects configured. "
      ++ "Set SNOWFLAKE_CORTEX_AGENT_NAME[_COMBINED] "
      ++ "or SNOWFLAKE_CORTEX_AGENT_NAME_ANALYST/SEARCH.")
  else
    match agent_preference with
    | none => .ok (keyword_score_route st (pyLower query) context)
    | some ap =>
      match agent_preference_route st ap with
      | some r => .ok r
      | none => .ok (keyword_score_route st (pyLower query) context)

end Orchestrator

/-- `Except` equality is decidable (used to evaluate router results on
concrete inputs). -/
instance {e a : Type} [DecidableEq e] [DecidableEq a] : DecidableEq (Except e a) := fun x y =>
  match x, y with
  | .ok v, .ok w =>
    if h : v = w then isTrue (by rw [h]) else isFalse (by intro hc; injection hc; contradiction)
  | .error v, .error w =>
    if h : v = w then isTrue (by rw [h]) else isFalse (by intro hc; injection hc; contradiction)
  | .ok _, .error _ => isFalse (by intro hc; cases hc)
  | .error _, .ok _ => isFalse (by intro hc; cases hc)

/-- C4: an `agent_preference` exactly equal to a known (configured) Snowflake
agent object name routes to exactly that single agent with confidence 1.0 and
a reason naming the explicit preference; a preference exactly equal to one of
the router's domain keywords (`analyst` / `search` / `combined`) whose agent
is configured routes to that entry's single agent with confidence 1.0. -/
theorem route_request_explicit_preference
    (st : Orchestrator.SnowflakeAgentSettings) (query : String)
    (context : Option (List (String × String))) (ap : String) (hap : ap ≠ "") :
    (Orchestrator.pyStrip ap ≠ "" →
      (st.cortex_agent_name_analyst = some (Orchestrator.pyStrip ap)
        ∨ st.cortex_agent_name_search = some (Orchestrator.pyStrip ap)
        ∨ Orchestrator.pyOrStr st.cortex_agent_name_combined st.cortex_agent_name
            = some (Orchestrator.pyStrip ap)) →
      Orchestrator.route_request st query context (some ap)
        = .ok ⟨[Orchestrator.pyStrip ap],
            "Explicit agent preference (agent object): " ++ Orchestrator.pyStrip ap,
            1, none⟩)
    ∧ (¬ (st.cortex_agent_name_analyst = some (Orchestrator.pyStrip ap)
          ∨ st.cortex_agent_name_search = some (Orchestrator.pyStrip ap)
          ∨ Orchestrator.pyOrStr st.cortex_agent_name_combined st.cortex_agent_name
              = some (Orchestrator.pyStrip ap)) →
       ∀ a, st.cortex_agent_name_analyst = some a → a ≠ "" →
       Orchestrator.pyStrip ap = "analyst" →
       Orchestrator.route_request st query context (some ap)
         = .ok ⟨[a], "Explicit agent preference: analyst", 1, none⟩)
    ∧ (¬ (st.cortex_agent_name_analyst = some (Orchestrator.pyStrip ap)
          ∨ st.cortex_agent_name_search = some (Orchestrator.pyStrip ap)
          ∨ Orchestrator.pyOrStr st.cortex_agent_name_combined st.cortex_agent_name
              = some (Orchestrator.pyStrip ap)) →
       ∀ s, st.cortex_agent_name_search = some s → s ≠ "" →
       Orchestrator.pyStrip ap = "search" →
       Orchestrator.route_request st query context (some ap)
         = .ok ⟨[s], "Explicit agent preference: search", 1, none⟩)
    ∧ (¬ (st.cortex_agent_name_analyst = some (Orchestrator.pyStrip ap)
          ∨ st.cortex_agent_name_search = some (Orchestrator.pyStrip ap)
          ∨ Orchestrator.pyOrStr st.cortex_agent_name_combined st.cortex_agent_name
              = some (Orchestrator.pyStrip ap)) →
       ∀ c, Orchestrator.pyOrStr st.cortex_agent_name_combined st.cortex_agent_name
              = some c → c ≠ "" →
       Orchestrator.pyStrip ap = "combined" →
       Orchestrator.route_request st query context (some ap)
         = .ok ⟨[c], "Explicit agent preference: combined", 1, none⟩) := by
  refine ⟨?_, ?_, ?_, ?_⟩
  · intro hpref h3
    have hcond : (!Orchestrator.optTruthy
          (Orchestrator.pyOrStr st.cortex_agent_name_combined st.cortex_agent_name)
        && !Orchestrator.optTruthy st.cortex_agent_name_analyst
        && !Orchestrator.optTruthy st.cortex_agent_name_search) = false := by
      rcases h3 with h | h | h <;> simp [Orchestrator.optTruthy, h, hpref]
    have hpr : Orchestrator.agent_preference_route st ap
        = some ⟨[Orchestrator.pyStrip ap],
            "Explicit agent preference (agent object): " ++ Orchestrator.pyStrip ap,
            1, none⟩ := by
      simp only [Orchestrator.agent_preference_route, if_neg hap, if_pos h3]
    simp only [Orchestrator.route_request, hcond, Bool.false_eq_true, if_false, hpr]
  · intro h3 a ha hane hpe
    have hcond : (!Orchestrator.optTruthy
          (Orchestrator.pyOrStr st.cortex_agent_name_combined st.cortex_agent_name)
        && !Orchestrator.optTruthy st.cortex_agent_name_analyst
        && !Orchestrator.optTruthy st.cortex_agent_name_search) = false := by
      simp [Orchestrator.optTruthy, ha, hane]
    have htr : Orchestrator.optTruthy st.cortex_agent_name_analyst = true := by
      simp [Orchestrator.optTruthy, ha, hane]
    have hbr : (Orchestrator.strContains (Orchestrator.pyLower (Orchestrator.pyStrip ap)) "analyst"
        && Orchestrator.optTruthy st.cortex_agent_name_analyst) = true := by
      rw [hpe, htr]
      simp only [Bool.and_true]
      decide
    have hpr : Orchestrator.agent_preference_route st ap
        = some ⟨[a], "Explicit agent preference: analyst", 1, none⟩ := by
      simp only [Orchestrator.agent_preference_route, if_neg hap, if_neg h3, hbr,
        if_true]
      rw [ha]
      rfl
    simp only [Orchestrator.route_request, hcond, Bool.false_eq_true, if_false, hpr]
  · intro h3 s hs hsne hpe
    have hcond : (!Orchestrator.optTruthy
          (Orchestrator.pyOrStr st.cortex_agent_name_combined st.cortex_agent_name)
        && !Orchestrator.optTruthy st.cortex_agent_name_analyst
        && !Orchestrator.optTruthy st.cortex_agent_name_search) = false := by
      simp [Orchestrator.optTruthy, hs, hsne]
    have htr : Orchestrator.optTruthy st.cortex_agent_name_search = true := by
      simp [Orchestrator.optTruthy, hs, hsne]
    have hbr1 : (Orchestrator.strContains (Orchestrator.pyLower (Orchestrator.pyStrip ap)) "analyst"
        && Orchestrator.optTruthy st.cortex_agent_name_analyst) = false := by
      rw [hpe]
      have : Orchestrator.strContains (Orchestrator.pyLower "search") "analyst" = false := by decide
      rw [this, Bool.false_and]
    have hbr2 : (Orchestrator.strContains (Orchestrator.pyLower (Orchestrator.pyStrip ap)) "search"
        && Orchestrator.optTruthy st.cortex_agent_name_search) = true := by
      rw [hpe, htr]
      simp only [Bool.and_true]
      decide
    have hpr : Orchestrator.agent_preference_route st ap
        = some ⟨[s], "Explicit agent preference: search", 1, none⟩ := by
      simp only [Orchestrator.agent_preference_route, if_neg hap, if_neg h3, hbr1,
        Bool.false_eq_true, if_false, hbr2, if_true]
      rw [hs]
      rfl
    simp only [Orchestrator.route_request, hcond, Bool.false_eq_true, if_false, hpr]
  · intro h3 c hc hcne hpe
    have hcond : (!Orchestrator.optTruthy
          (Orchestrator.pyOrStr st.cortex_agent_name_combined st.cortex_agent_name)
        && !Orchestrator.optTruthy st.cortex_agent_name_analyst
        && !Orchestrator.optTruthy st.cortex_agent_name_search) = false := by
      simp [Orchestrator.optTruthy, hc, hcne]
    have htr : Orchestrator.optTruthy
        (Orchestrator.pyOrStr st.cortex_agent_name_combined st.cortex_agent_name) = true := by
      simp [Orchestrator.optTruthy, hc, hcne]
    have hbr1 : (Orchestrator.strContains (Orchestrator.pyLower (Orchestrator.pyStrip ap)) "analyst"
        && Orchestrator.optTruthy st.cortex_agent_name_analyst) = false := by
      rw [hpe]
      have : Orchestrator.strContains (Orchestrator.pyLower "combined") "analyst" = false := by decide
      rw [this, Bool.false_and]
    have hbr2 : (Orchestrator.strContains (Orchestrator.pyLower (Orchestrator.pyStrip ap)) "search"
        && Orchestrator.optTruthy st.cortex_agent_name_search) = false := by
      rw [hpe]
      have : Orchestrator.strContains (Orchestrator.pyLower "combined") "search" = false := by decide
      rw [this, Bool.false_and]
    have hbr3 : (Orchestrator.strContains (Orchestrator.pyLower (Orchestrator.pyStrip ap)) "combined"
        && Orchestrator.optTruthy
          (Orchestrator.pyOrStr st.cortex_agent_name_combined st.cortex_agent_name)) = true := by
      rw [hpe, htr]
      simp only [Bool.and_true]
      decide
    have hpr : Orchestrator.agent_preference_route st ap
        = some ⟨[c], "Explicit agent preference: combined", 1, none⟩ := by
      simp only [Orchestrator.agent_preference_route, if_neg hap, if_neg h3, hbr1,
        hbr2, Bool.false_eq_true, if_false, hbr3, if_true]
      rw [hc]
      rfl
    simp only [Orchestrator.route_request, hcond, Bool.false_eq_true, if_false, hpr]

/-- Witness for C4: registry `{analyst: SALES_AGENT, search: SEARCH_AGENT}`,
preference `"SALES_AGENT"` routes to `["SALES_AGENT"]` with confidence 1.0. -/
theorem route_request_explicit_preference_witness :
    ("SALES_AGENT" : String) ≠ ""
    ∧ Orchestrator.pyStrip "SALES_AGENT" ≠ ""
    ∧ Orchestrator.route_request ⟨some "SALES_AGENT", some "SEARCH_AGENT", none, none⟩
        "anything" none (some "SALES_AGENT")
        = .ok ⟨[Orchestrator.pyStrip "SALES_AGENT"],
            "Explicit agent preference (agent object): "
              ++ Orchestrator.pyStrip "SALES_AGENT", 1, none⟩ :=
  ⟨by decide, by decide,
    (route_request_explicit_preference ⟨some "SALES_AGENT", some "SEARCH_AGENT", none, none⟩
        "anything" none "SALES_AGENT" (by decide)).1 (by decide) (by decide)⟩

/-- C3 counterexample: with two enabled agents (`A_AG`, `S_AG`), no combined
agent, and a query matching no keywords (both scores `0 < 0.2`), the code
returns confidence `0.5`, not the claimed fixed `0.4`. -/
theorem route_request_no_signal_confidence_counterexample :
    Orchestrator.route_request ⟨some "A_AG", some "S_AG", none, none⟩
        "hello zebra" none none
      = .ok ⟨["A_AG", "S_AG"], "Ambiguous intent; calling multiple agents",
          1/2, some (0, 0)⟩
    ∧ ((1 : Rat)/2 ≠ 2/5) ∧ ((0 : Rat) < 2/10) := by
  have ha0 : Orchestrator.score_analyst_query (Orchestrator.pyLower "hello zebra") = 0 := by
    have h : (Orchestrator.analyst_keywords.filter
        (fun kw => Orchestrator.strContains (Orchestrator.pyLower "hello zebra") kw)).length
        = 0 := by decide
    simp only [Orchestrator.score_analyst_query, h]
    norm_num
  have hs0 : Orchestrator.score_search_query (Orchestrator.pyLower "hello zebra") = 0 := by
    have h : (Orchestrator.search_keywords.filter
        (fun kw => Orchestrator.strContains (Orchestrator.pyLower "hello zebra") kw)).length
        = 0 := by decide
    simp only [Orchestrator.score_search_query, h]
    norm_num
  have hfalse1 : ((none : Option String) = some "structured") = False := eq_false (by decide)
  have hfalse2 : ((none : Option String) = some "unstructured") = False := eq_false (by decide)
  refine ⟨?_, by norm_num, by norm_num⟩
  simp only [Orchestrator.route_request, Orchestrator.keyword_score_route,
    Orchestrator.optTruthy, Orchestrator.pyOrStr, ha0, hs0, hfalse1, hfalse2,
    if_false, zero_add, add_zero]
  norm_num
  have hA : ("A_AG" = "") = False := eq_false (by decide)
  have hS : ("S_AG" = "") = False := eq_false (by decide)
  simp only [hA, hS, if_false, and_self, false_and, List.cons_append, List.nil_append]

/-- C3 amended: with no explicit preference and no context hints, the router
picks the analyst (resp. search) agent alone, with confidence equal to its
(capped) score, only when that score strictly exceeds both the other score and
`0.3`; otherwise it calls the combined agent with confidence `0.5` when one is
configured, else all configured specialized agents (analyst first) with
confidence `0.5`. -/
theorem route_request_score_thresholds
    (st : Orchestrator.SnowflakeAgentSettings) (query : String) :
    let aS := Orchestrator.score_analyst_query (Orchestrator.pyLower query)
    let sS := Orchestrator.score_search_query (Orchestrator.pyLower query)
    let comb := Orchestrator.pyOrStr st.cortex_agent_name_combined st.cortex_agent_name
    (aS > sS → aS > 3/10 → Orchestrator.optTruthy st.cortex_agent_name_analyst = true →
      Orchestrator.route_request st query none none
        = .ok ⟨[st.cortex_agent_name_analyst.getD ""],
            "Structured intent detected; calling analyst agent (score: "
              ++ Orchestrator.formatScore2 aS ++ ")",
            min aS 1, some (aS, sS)⟩)
    ∧ (sS > aS → sS > 3/10 → Orchestrator.optTruthy st.cortex_agent_name_search = true →
      Orchestrator.route_request st query none none
        = .ok ⟨[st.cortex_agent_name_search.getD ""],
            "Unstructured intent detected; calling search agent (score: "
              ++ Orchestrator.formatScore2 sS ++ ")",
            min sS 1, some (aS, sS)⟩)
    ∧ (¬(aS > sS ∧ aS > 3/10 ∧ Orchestrator.optTruthy st.cortex_agent_name_analyst = true) →
       ¬(sS > aS ∧ sS > 3/10 ∧ Orchestrator.optTruthy st.cortex_agent_name_search = true) →
       (Orchestrator.optTruthy comb = true →
         Orchestrator.route_request st query none none
           = .ok ⟨[comb.getD ""], "Ambiguous intent; calling combined agent",
               1/2, some (aS, sS)⟩)
       ∧ (Orchestrator.optTruthy comb = false →
          (Orchestrator.optTruthy st.cortex_agent_name_analyst = true
            ∨ Orchestrator.optTruthy st.cortex_agent_name_search = true) →
         Orchestrator.route_request st query none none
           = .ok ⟨(if Orchestrator.optTruthy st.cortex_agent_name_analyst
                     then [st.cortex_agent_name_analyst.getD ""] else [])
                 ++ (if Orchestrator.optTruthy st.cortex_agent_name_search
                     then [st.cortex_agent_name_search.getD ""] else []),
               "Ambiguous intent; calling multiple agents", 1/2, some (aS, sS)⟩)) := by
  intro aS sS comb
  have hdt : ∀ r : Rat,
      (if (none : Option String) = some "structured" then (1:Rat)/2 else 0) + r = r := by
    intro r; rw [if_neg (by decide)]; exact zero_add r
  have hdt2 : ∀ r : Rat,
      (if (none : Option String) = some "unstructured" then (1:Rat)/2 else 0) + r = r := by
    intro r; rw [if_neg (by decide)]; exact zero_add r
  refine ⟨?_, ?_, ?_⟩
  · intro h1 h2 h3
    have hcond : (!Orchestrator.optTruthy comb
        && !Orchestrator.optTruthy st.cortex_agent_name_analyst
        && !Orchestrator.optTruthy st.cortex_agent_name_search) = false := by
      simp [h3]
    simp only [Orchestrator.route_request, hcond, Bool.false_eq_true, if_false,
      Orchestrator.keyword_score_route, hdt, hdt2]
    rw [if_pos ⟨h1, h2, h3⟩]
  · intro h1 h2 h3
    have hcond : (!Orchestrator.optTruthy comb
        && !Orchestrator.optTruthy st.cortex_agent_name_analyst
        && !Orchestrator.optTruthy st.cortex_agent_name_search) = false := by
      simp [h3]
    have hfst : ¬(aS > sS ∧ aS > 3/10
        ∧ Orchestrator.optTruthy st.cortex_agent_name_analyst = true) := by
      rintro ⟨hgt, -, -⟩
      exact absurd h1 (not_lt.mpr (le_of_lt hgt))
    simp only [Orchestrator.route_request, hcond, Bool.false_eq_true, if_false,
      Orchestrator.keyword_score_route, hdt, hdt2]
    rw [if_neg hfst, if_pos ⟨h1, h2, h3⟩]
  · intro h1 h2
    constructor
    · intro hcomb
      have hcond : (!Orchestrator.optTruthy comb
          && !Orchestrator.optTruthy st.cortex_agent_name_analyst
          && !Orchestrator.optTruthy st.cortex_agent_name_search) = false := by
        simp [hcomb]
      simp only [Orchestrator.route_request, hcond, Bool.false_eq_true, if_false,
        Orchestrator.keyword_score_route, hdt, hdt2]
      rw [if_neg h1, if_neg h2, if_pos hcomb]
    · intro hcomb hone
      have hcond : (!Orchestrator.optTruthy comb
          && !Orchestrator.optTruthy st.cortex_agent_name_analyst
          && !Orchestrator.optTruthy st.cortex_agent_name_search) = false := by
        rcases hone with h | h <;> simp [h]
      simp only [Orchestrator.route_request, hcond, Bool.false_eq_true, if_false,
        Orchestrator.keyword_score_route, hdt, hdt2]
      rw [if_neg h1, if_neg h2, if_neg (by simp [hcomb])]

/-- Witness for C3's amended theorem: query `"sum count"` scores `1/3 > 0.3`
on the analyst keywords and `0` on the search keywords, so the analyst agent
alone is returned with confidence `min (1/3) 1`. -/
theorem route_request_score_thresholds_witness :
    (Orchestrator.score_analyst_query (Orchestrator.pyLower "sum count")
        > Orchestrator.score_search_query (Orchestrator.pyLower "sum count"))
    ∧ (Orchestrator.score_analyst_query (Orchestrator.pyLower "sum count") > 3/10)
    ∧ Orchestrator.optTruthy
        (Orchestrator.SnowflakeAgentSettings.cortex_agent_name_analyst
          ⟨some "A_AG", some "S_AG", none, none⟩) = true
    ∧ Orchestrator.route_request ⟨some "A_AG", some "S_AG", none, none⟩
        "sum count" none none
      = .ok ⟨[(some "A_AG").getD ""],
          "Structured intent detected; calling analyst agent (score: "
            ++ Orchestrator.formatScore2
                (Orchestrator.score_analyst_query (Orchestrator.pyLower "sum count")) ++ ")",
          min (Orchestrator.score_analyst_query (Orchestrator.pyLower "sum count")) 1,
          some (Orchestrator.score_analyst_query (Orchestrator.pyLower "sum count"),
                Orchestrator.score_search_query (Orchestrator.pyLower "sum count"))⟩ := by
  have ha : Orchestrator.score_analyst_query (Orchestrator.pyLower "sum count") = 1/3 := by
    have h : (Orchestrator.analyst_keywords.filter
        (fun kw => Orchestrator.strContains (Orchestrator.pyLower "sum count") kw)).length
        = 2 := by decide
    have hlen : Orchestrator.analyst_keywords.length = 12 := by decide
    simp only [Orchestrator.score_analyst_query, h, hlen]
    norm_num [min_def]
  have hs : Orchestrator.score_search_query (Orchestrator.pyLower "sum count") = 0 := by
    have h : (Orchestrator.search_keywords.filter
        (fun kw => Orchestrator.strContains (Orchestrator.pyLower "sum count") kw)).length
        = 0 := by decide
    simp only [Orchestrator.score_search_query, h]
    norm_num
  have h1 : Orchestrator.score_analyst_query (Orchestrator.pyLower "sum count")
      > Orchestrator.score_search_query (Orchestrator.pyLower "sum count") := by
    rw [ha, hs]; norm_num
  have h2 : Orchestrator.score_analyst_query (Orchestrator.pyLower "sum count") > 3/10 := by
    rw [ha]; norm_num
  have h3 : Orchestrator.optTruthy
      (Orchestrator.SnowflakeAgentSettings.cortex_agent_name_analyst
        ⟨some "A_AG", some "S_AG", none, none⟩) = true := by decide
  exact ⟨h1, h2, h3,
    (route_request_score_thresholds ⟨some "A_AG", some "S_AG", none, none⟩ "sum count").1
      h1 h2 h3⟩

namespace Orchestrator

/-! ## combine_responses (src/langgraph/supervisor/graph.py:280-332)

Each agent response is a dict with optional `agent_name`, `response` and
`sources` keys.  The node stores the combined record back as the single
element of `state["agent_responses"]` and its text as
`state["final_response"]`; the embedding returns exactly that pair. -/

/-- One agent response record (`sources` entries kept generic). -/
structure AgentResp (σ : Type) where
  agent_name : Option String
  response : Option String
  sources : Option (List σ)
  deriving Repr, DecidableEq

/-- The value stored back into `agent_responses`: either the untouched single
response, or the combined record `{response, sources, agents}`. -/
inductive CombinedResponse (σ : Type) where
  | single : AgentResp σ → CombinedResponse σ
  | multi : String → List σ → List (Option String) → CombinedResponse σ
  deriving Repr, DecidableEq

/-- The `[{agent_name}] {response}` label applied per response. -/
def labelResp {σ : Type} (r : AgentResp σ) : String :=
  "[" ++ r.agent_name.getD "agent" ++ "] " ++ r.response.getD ""

/-- The `response` text of the stored record (`agent_response.get("response", "")`). -/
def combinedText {σ : Type} : CombinedResponse σ → String
  | .single r => r.response.getD ""
  | .multi t _ _ => t

/-- `combine_responses`: one response is used as-is; otherwise label each
text, join with blank lines and strip, extend the sources in input order and
record the agent-name list.  Returns (stored record, `final_response`). -/
def combine_responses {σ : Type} (rs : List (AgentResp σ)) :
    CombinedResponse σ × String :=
  let agent_response : CombinedResponse σ :=
    match rs with
    | [r] => .single r
    | _ =>
      .multi (pyStrip (String.intercalate "\n\n" (rs.map labelResp)))
        (rs.foldl (fun acc r => acc ++ r.sources.getD []) [])
        (rs.map (fun r => r.agent_name))
  (agent_response, combinedText agent_response)

end Orchestrator

/-- C9: `combine_responses` with exactly one response stores it unchanged
(and its text as `final_response`); with two responses it stores the texts
prefixed with `[agent_name]` joined by a blank line, the two sources lists
concatenated in input order, and the contributing agent names. -/
theorem combine_responses_formatting {σ : Type}
    (r a b : Orchestrator.AgentResp σ)
    (htrim : Orchestrator.pyStrip
        (Orchestrator.labelResp a ++ "\n\n" ++ Orchestrator.labelResp b)
      = Orchestrator.labelResp a ++ "\n\n" ++ Orchestrator.labelResp b) :
    Orchestrator.combine_responses [r] = (.single r, r.response.getD "")
    ∧ Orchestrator.combine_responses [a, b]
      = (.multi (Orchestrator.labelResp a ++ "\n\n" ++ Orchestrator.labelResp b)
          (a.sources.getD [] ++ b.sources.getD [])
          [a.agent_name, b.agent_name],
        Orchestrator.labelResp a ++ "\n\n" ++ Orchestrator.labelResp b) := by
  constructor
  · rfl
  · have hj : String.intercalate "\n\n"
        [Orchestrator.labelResp a, Orchestrator.labelResp b]
        = Orchestrator.labelResp a ++ "\n\n" ++ Orchestrator.labelResp b := by
      simp [String.intercalate, String.join]
      rfl
    simp only [Orchestrator.combine_responses, hj, htrim, Orchestrator.combinedText,
      List.map_cons, List.map_nil, List.foldl_cons, List.foldl_nil, List.nil_append]

/-- Witness for C9: `{A, foo, [1]}` and `{B, bar, [2]}` combine to
`"[A] foo\n\n[B] bar"` with sources `[1, 2]`; a single response is unchanged. -/
theorem combine_responses_formatting_witness :
    (Orchestrator.pyStrip
        (Orchestrator.labelResp (⟨some "A", some "foo", some [1]⟩ : Orchestrator.AgentResp Nat)
          ++ "\n\n" ++ Orchestrator.labelResp (⟨some "B", some "bar", some [2]⟩ : Orchestrator.AgentResp Nat))
      = Orchestrator.labelResp (⟨some "A", some "foo", some [1]⟩ : Orchestrator.AgentResp Nat)
          ++ "\n\n" ++ Orchestrator.labelResp (⟨some "B", some "bar", some [2]⟩ : Orchestrator.AgentResp Nat))
    ∧ Orchestrator.combine_responses
        [(⟨some "A", some "foo", some [1]⟩ : Orchestrator.AgentResp Nat), ⟨some "B", some "bar", some [2]⟩]
      = (.multi "[A] foo\n\n[B] bar" [1, 2] [some "A", some "B"], "[A] foo\n\n[B] bar") :=
  ⟨by decide,
    by
      have h := (combine_responses_formatting
        (⟨some "A", some "foo", some [1]⟩ : Orchestrator.AgentResp Nat)
        ⟨some "A", some "foo", some [1]⟩ ⟨some "B", some "bar", some [2]⟩ (by decide)).2
      rw [h]
      decide⟩

namespace Orchestrator

/-! ## Teams outgoing-webhook signature verification
(src/aws_agent_core/lambda_handlers/teams_webhook_handler.py)

The HMAC-SHA256/base64 primitive is a stdlib call; it is passed in as a
function `hmacB64 : secret → body → signature`.  Only the handler's own
logic (header extraction, comparison, accept/reject policy) is translated. -/

/-- Python `str.replace(pat, repl)` (all non-overlapping occurrences, left to
right), via fuel over the character list; an empty pattern is left alone
(the handler only ever replaces `"Bearer "`). -/
def replaceAllAux (pat repl : List Char) : Nat → List Char → List Char
  | 0, l => l
  | _ + 1, [] => []
  | n + 1, c :: cs =>
    if pat ≠ [] ∧ isPrefixL pat (c :: cs) then
      repl ++ replaceAllAux pat repl n (List.drop (pat.length - 1) cs)
    else
      c :: replaceAllAux pat repl n cs

/-- Python `s.replace(pat, repl)`. -/
def pyReplace (s pat repl : String) : String :=
  String.mk (replaceAllAux pat.toList repl.toList (s.toList.length + 1) s.toList)

/-- `verify_teams_webhook_signature`: base64 HMAC-SHA256 of the body under the
secret, compared (in constant time in the source) with the presented
signature. -/
def verify_teams_webhook_signature (hmacB64 : String → String → String)
    (body signature secret : String) : Bool :=
  signature == hmacB64 secret body

/-- Outcome of the signature-check section of `lambda_handler` (lines 85-98):
either a 401 rejection, or processing continues (with `warned = true` when
the signature header was entirely absent). -/
inductive SigCheck where
  | reject401 : String → String → SigCheck
  | proceed : Bool → SigCheck
  deriving Repr, DecidableEq

/-- The signature-check section of `lambda_handler`: when a secret is
configured, take the `Authorization` header with `"Bearer "` stripped, or
else the `X-Teams-Signature` header; reject 401 only when a non-empty
signature fails verification; merely warn when no signature was supplied. -/
def teams_webhook_signature_check (hmacB64 : String → String → String)
    (webhook_secret : Option String)
    (authorization xTeamsSignature : Option String)
    (body_str : String) : SigCheck :=
  match webhook_secret with
  | none => .proceed false
  | some secret =>
    if secret = "" then .proceed false
    else
      let sig0 := pyReplace (authorization.getD "") "Bearer " ""
      let signature := if sig0 = "" then xTeamsSignature.getD "" else sig0
      if signature ≠ "" then
        if ¬ verify_teams_webhook_signature hmacB64 body_str signature secret then
          .reject401 "Invalid signature" "UNAUTHORIZED"
        else
          .proceed false
      else
        .proceed true

end Orchestrator

/-- The signature the handler ends up comparing: the `Authorization` header
with `"Bearer "` stripped, or else the `X-Teams-Signature` header. -/
def Orchestrator.teams_presented_signature
    (authorization xTeamsSignature : Option String) : String :=
  let sig0 := Orchestrator.pyReplace (authorization.getD "") "Bearer " ""
  if sig0 = "" then xTeamsSignature.getD "" else sig0

/-- C7: with a configured webhook secret, a present-but-wrong signature is
rejected with 401 UNAUTHORIZED; an entirely absent signature only logs a
warning and processing continues; a present correct signature continues
without warning. -/
theorem teams_webhook_signature_policy (hmacB64 : String → String → String)
    (secret body : String) (authorization xTeamsSignature : Option String)
    (hsec : secret ≠ "") :
    (Orchestrator.teams_presented_signature authorization xTeamsSignature ≠ "" →
      Orchestrator.teams_presented_signature authorization xTeamsSignature
          ≠ hmacB64 secret body →
      Orchestrator.teams_webhook_signature_check hmacB64 (some secret)
          authorization xTeamsSignature body
        = .reject401 "Invalid signature" "UNAUTHORIZED")
    ∧ (Orchestrator.teams_presented_signature authorization xTeamsSignature = "" →
      Orchestrator.teams_webhook_signature_check hmacB64 (some secret)
          authorization xTeamsSignature body
        = .proceed true)
    ∧ (Orchestrator.teams_presented_signature authorization xTeamsSignature ≠ "" →
      Orchestrator.teams_presented_signature authorization xTeamsSignature
          = hmacB64 secret body →
      Orchestrator.teams_webhook_signature_check hmacB64 (some secret)
          authorization xTeamsSignature body
        = .proceed false) := by
  have hsig : Orchestrator.teams_presented_signature authorization xTeamsSignature
      = (if Orchestrator.pyReplace (authorization.getD "") "Bearer " "" = ""
          then xTeamsSignature.getD ""
          else Orchestrator.pyReplace (authorization.getD "") "Bearer " "") := rfl
  set signature := Orchestrator.teams_presented_signature authorization xTeamsSignature
    with hsigdef
  refine ⟨?_, ?_, ?_⟩
  · intro hne hwrong
    have hv : Orchestrator.verify_teams_webhook_signature hmacB64 body signature secret
        = false := by
      simp only [Orchestrator.verify_teams_webhook_signature, beq_eq_false_iff_ne, ne_eq]
      exact hwrong
    simp only [Orchestrator.teams_webhook_signature_check, if_neg hsec]
    rw [← hsig, if_pos hne, hv]
    simp
  · intro hempty
    simp only [Orchestrator.teams_webhook_signature_check, if_neg hsec]
    rw [← hsig, if_neg (by simpa using hempty)]
  · intro hne hright
    have hv : Orchestrator.verify_teams_webhook_signature hmacB64 body signature secret
        = true := by
      simp only [Orchestrator.verify_teams_webhook_signature, beq_iff_eq]
      exact hright
    simp only [Orchestrator.teams_webhook_signature_check, if_neg hsec]
    rw [← hsig, if_pos hne, hv]
    simp

/-- Witness for C7: secret `"sek"`, `Authorization: Bearer WRONG` with a dummy
HMAC function — the wrong signature is rejected with 401. -/
theorem teams_webhook_signature_policy_witness :
    ("sek" : String) ≠ ""
    ∧ (Orchestrator.teams_presented_signature (some "Bearer WRONG") none ≠ ""
        ∧ Orchestrator.teams_presented_signature (some "Bearer WRONG") none
            ≠ (fun sec bod => sec ++ "|" ++ bod) "sek" "body")
    ∧ Orchestrator.teams_webhook_signature_check (fun sec bod => sec ++ "|" ++ bod)
        (some "sek") (some "Bearer WRONG") none "body"
      = .reject401 "Invalid signature" "UNAUTHORIZED" :=
  ⟨by decide, ⟨by decide, by decide⟩,
    (teams_webhook_signature_policy (fun sec bod => sec ++ "|" ++ bod) "sek" "body"
        (some "Bearer WRONG") none (by decide)).1 (by decide) (by decide)⟩

namespace Orchestrator

/-! ## Routing policies (src/langgraph/supervisor/policies/base.py,
optimized_router.py, handoffs.py) and the routing prompt
(src/langfuse/prompt_manager.py, src/langgraph/observability/langfuse_client.py). -/

/-- `followup_starters` from `is_likely_followup`. -/
def followup_starters : List String :=
  ["and ", "also ", "then ", "next ", "now ", "ok", "okay",
   "what about", "how about", "can you", "could you", "please"]

/-- The pronoun token set from `is_likely_followup`. -/
def pronouns : List String :=
  ["it", "that", "this", "those", "these", "them", "they", "he", "she"]

/-- The punctuation stripped from tokens (`t.strip(".,!?;:()[]{}\"'")`). -/
def tokenPunct : List Char :=
  ['.', ',', '!', '?', ';', ':', '(', ')', '[', ']', '\x7b', '\x7d', '"', '\'']

/-- Python `t.strip(chars)`: drop the given characters from both ends. -/
def pyStripChars (chars : List Char) (s : String) : String :=
  String.mk (((s.toList.dropWhile (fun c => chars.contains c)).reverse.dropWhile
    (fun c => chars.contains c)).reverse)

/-- Python `str.split()` (split on whitespace runs, dropping empties). -/
def splitWSAux : List Char → List Char → List String
  | [], acc => if acc = [] then [] else [String.mk acc.reverse]
  | c :: cs, acc =>
    if isPyWS c then
      (if acc = [] then [] else [String.mk acc.reverse]) ++ splitWSAux cs []
    else
      splitWSAux cs (c :: acc)

/-- Python `str.split()`. -/
def pySplit (s : String) : List String := splitWSAux s.toList []

/-- `is_likely_followup` (src/langgraph/supervisor/policies/base.py:56-110):
needs at least two prior messages and a non-empty trimmed query; a follow-up
is a short query (≤ 32 chars, the `FollowUpHeuristics` default), one starting
with a continuation phrase, or one containing a pronoun token while a prior
query exists.  Messages are only inspected for their count. -/
def is_likely_followup {α : Type} (query : String) (messages : List α)
    (last_query : Option String) : Bool :=
  if messages.length < 2 then false
  else
    let q := pyLower (pyStrip query)
    if q = "" then false
    else if q.toList.length ≤ 32 then true
    else if followup_starters.any (fun s => isPrefixL s.toList q.toList) then true
    else if optTruthy last_query then
      let tokens := (pySplit q).map (fun t => pyLower (pyStripChars tokenPunct t))
      pronouns.any (fun p => tokens.contains p)
    else false

/-- `normalize_query_for_cache`: lowercase, collapse whitespace. -/
def normalize_query_for_cache (query : String) : String :=
  String.intercalate " " (pySplit (pyLower (pyStrip query)))

/-- A value held in the policies' short-term memory: either a string
(`last_query`, `active_agent`, …) or a routing-decision dict.  A `.dec`
value models a non-empty dict (so it is truthy and `isinstance(_, dict)`). -/
inductive MemVal where
  | str : String → MemVal
  | dec : List String → String → Option Rat → MemVal
  deriving Repr, DecidableEq

/-- Projections of a stored routing decision
(`agents_to_call`, `routing_reason`, `confidence`; a `none` confidence models
a missing or float-unparsable value). -/
def MemVal.agents : MemVal → List String
  | .dec a _ _ => a
  | .str _ => []

/-- Which of the three return paths of `OptimizedRouterPolicy.decide` ran.
`routed` records the query string handed to `AgentRouter.route_request`
together with the router's result; the prompt-render callback is consumed
only on that path. -/
inductive PolicyOutcome where
  | reuse : List String → String → Rat → PolicyOutcome
  | cacheHit : List String → String → Option Rat → PolicyOutcome
  | routed : String → Except String RouteResult → PolicyOutcome
  deriving Repr, DecidableEq

/-- `OptimizedRouterPolicy.decide` (src/langgraph/supervisor/policies/
optimized_router.py:46-111).  The rendered routing prompt is passed in as
`rendered` (the value `await render_routing_prompt()` would produce); the
follow-up fast path and the cache fast path return before it is consumed.
Returns the outcome and the updated short-term memory. -/
def optimized_router_decide (followup_reuse_enabled : Bool)
    (cache_ttl_seconds : Int) (st : SnowflakeAgentSettings)
    (mem : STMem MemVal) (now : Rat) (session_id query : String)
    (context : Option (List (String × String))) {α : Type} (messages : List α)
    (agent_preference : Option String) (rendered : String) :
    PolicyOutcome × STMem MemVal :=
  let step1 : Option PolicyOutcome × STMem MemVal :=
    if followup_reuse_enabled then
      let r1 := stmRetrieve mem session_id "last_query" now
      let last_query : Option String :=
        match r1.1 with
        | some (.str s) => some s
        | _ => none
      let r2 := stmRetrieve r1.2 session_id "routing_decision" now
      match r2.1 with
      | some (.dec agents reason conf) =>
        if is_likely_followup query messages last_query then
          (some (.reuse agents
            (pyStrip ("Follow-up reuse: reusing previous routing decision to reduce latency. "
              ++ pyStrip reason))
            (conf.getD (4/5))), r2.2)
        else (none, r2.2)
      | _ => (none, r2.2)
    else (none, mem)
  match step1 with
  | (some out, m) => (out, m)
  | (none, m) =>
    let cache_key := "routing_cache:" ++ normalize_query_for_cache query
    let r3 := stmRetrieve m session_id cache_key now
    match r3.1 with
    | some (.dec agents reason conf) =>
      (.cacheHit agents
        (pyStrip ("Cache hit: reused cached routing decision for identical query. "
          ++ pyStrip reason))
        conf, r3.2)
    | _ =>
      match route_request st rendered context agent_preference with
      | .ok r =>
        (.routed rendered (.ok r),
          stmStore r3.2 session_id cache_key (.dec r.agents_to_call r.routing_reason
            (some r.confidence)) (some cache_ttl_seconds) 3600 now)
      | .error e => (.routed rendered (.error e), r3.2)

/-- `HandoffsPolicy._route_and_set_active` (src/langgraph/supervisor/policies/
handoffs.py:121-167): render the routing prompt, call the router with the
*prompt* as query, then store the first routed agent as `active_agent`
(the `domain_agents` loop is a no-op because this repository's `agent_router`
has no such attribute). -/
def handoffs_route_and_set_active (active_agent_ttl_seconds : Int)
    (st : SnowflakeAgentSettings) (mem : STMem MemVal) (now : Rat)
    (session_id : String) (context : Option (List (String × String)))
    (agent_preference : Option String) (rendered : String) :
    (String × Except String RouteResult) × STMem MemVal :=
  let decision := route_request st rendered context agent_preference
  match decision with
  | .ok r =>
    if r.agents_to_call ≠ [] then
      ((rendered, decision),
        stmStore mem session_id "active_agent" (.str (r.agents_to_call.headD ""))
          (some active_agent_ttl_seconds) 3600 now)
    else ((rendered, decision), mem)
  | .error _ => ((rendered, decision), mem)

/-- `LangfusePromptManager.render_prompt`: literal `{key}` replacement for
every variable, in order. -/
def render_prompt (template : String) (vars : List (String × String)) : String :=
  vars.foldl (fun acc kv => pyReplace acc ("\x7b" ++ kv.1 ++ "\x7d") kv.2) template

/-- The built-in default `supervisor_routing` prompt template
(src/langfuse/prompt_manager.py:275). -/
def supervisor_routing_default : String :=
  "Analyze the following query and determine the best agent to handle it: \x7bquery\x7d\n\nContext: \x7bcontext\x7d"

/-- `LangfuseClient.get_prompt_for_routing` (src/langgraph/observability/
langfuse_client.py:116-144): render the fetched template with
`{query, context}`, or fall back to a fixed prompt embedding the query. -/
def get_prompt_for_routing (promptTemplate : Option String)
    (query contextStr : String) : String :=
  match promptTemplate with
  | some tpl => render_prompt tpl [("query", query), ("context", contextStr)]
  | none => "Analyze the following query and determine the best agent to handle it: " ++ query

/-- The routing portion of the legacy `LangGraphSupervisor.process_request`
(src/langgraph/supervisor.py:82-92): the rendered prompt — not the user's
query — is what `route_request` receives. -/
def legacy_supervisor_routing_call (st : SnowflakeAgentSettings)
    (promptTemplate : Option String) (query contextStr : String)
    (context : Option (List (String × String)))
    (agent_preference : Option String) : String × Except String RouteResult :=
  let routing_prompt := get_prompt_for_routing promptTemplate query contextStr
  (routing_prompt, route_request st routing_prompt context agent_preference)

end Orchestrator

/-- C6: with follow-up reuse enabled, a stored prior routing decision and a
query judged a likely follow-up, `OptimizedRouterPolicy.decide` returns the
prior decision's `agents_to_call` with a "Follow-up reuse"-prefixed reason and
float-coerced confidence (0.8 when unparsable/missing), and the prompt-render
callback and router are never consumed (the outcome is not `routed`). -/
theorem optimized_router_followup_reuse {α : Type}
    (cache_ttl : Int) (st : Orchestrator.SnowflakeAgentSettings)
    (mem : Orchestrator.STMem Orchestrator.MemVal) (now : Rat)
    (sid query : String) (ctx : Option (List (String × String)))
    (messages : List α) (ap : Option String) (rendered : String)
    (agents : List String) (reason : String) (conf : Option Rat)
    (h2 : (Orchestrator.stmRetrieve (Orchestrator.stmRetrieve mem sid "last_query" now).2
        sid "routing_decision" now).1 = some (.dec agents reason conf))
    (hfu : Orchestrator.is_likely_followup query messages
        (match (Orchestrator.stmRetrieve mem sid "last_query" now).1 with
          | some (.str s) => some s
          | _ => none) = true) :
    Orchestrator.optimized_router_decide true cache_ttl st mem now sid query ctx
        messages ap rendered
      = (.reuse agents
          (Orchestrator.pyStrip
            ("Follow-up reuse: reusing previous routing decision to reduce latency. "
              ++ Orchestrator.pyStrip reason))
          (conf.getD (4/5)),
         (Orchestrator.stmRetrieve (Orchestrator.stmRetrieve mem sid "last_query" now).2
           sid "routing_decision" now).2)
    ∧ ∀ (q : String) (res : Except String Orchestrator.RouteResult),
      (Orchestrator.optimized_router_decide true cache_ttl st mem now sid query ctx
          messages ap rendered).1 ≠ .routed q res := by
  have hmain : Orchestrator.optimized_router_decide true cache_ttl st mem now sid query ctx
        messages ap rendered
      = (.reuse agents
          (Orchestrator.pyStrip
            ("Follow-up reuse: reusing previous routing decision to reduce latency. "
              ++ Orchestrator.pyStrip reason))
          (conf.getD (4/5)),
         (Orchestrator.stmRetrieve (Orchestrator.stmRetrieve mem sid "last_query" now).2
           sid "routing_decision" now).2) := by
    simp only [Orchestrator.optimized_router_decide, if_true, h2, hfu]
  refine ⟨hmain, ?_⟩
  intro q res hcontra
  rw [hmain] at hcontra
  exact Orchestrator.PolicyOutcome.noConfusion hcontra

/-- Witness for C6: session memory holding a prior decision for
`MARKET_SEGMENT_AGENT` and last query; the short follow-up `"and that?"`
reuses the prior decision without rendering or routing. -/
theorem optimized_router_followup_reuse_witness :
    ((Orchestrator.stmRetrieve
        (Orchestrator.stmRetrieve
          [("s", [("last_query",
              ⟨"last_query", Orchestrator.MemVal.str "show me market segmentation", 0, some 0⟩),
            ("routing_decision",
              ⟨"routing_decision",
                Orchestrator.MemVal.dec ["MARKET_SEGMENT_AGENT"] "prior" (some 1), 0, some 0⟩)])]
          "s" "last_query" 0).2
        "s" "routing_decision" 0).1
      = some (.dec ["MARKET_SEGMENT_AGENT"] "prior" (some 1)))
    ∧ (Orchestrator.is_likely_followup "and that?" ([0, 1] : List Nat)
        (match (Orchestrator.stmRetrieve
            [("s", [("last_query",
                ⟨"last_query", Orchestrator.MemVal.str "show me market segmentation", 0, some 0⟩),
              ("routing_decision",
                ⟨"routing_decision",
                  Orchestrator.MemVal.dec ["MARKET_SEGMENT_AGENT"] "prior" (some 1), 0, some 0⟩)])]
            "s" "last_query" 0).1 with
          | some (.str s) => some s
          | _ => none) = true)
    ∧ (Orchestrator.optimized_router_decide true 60 ⟨none, none, none, some "X"⟩
        [("s", [("last_query",
            ⟨"last_query", Orchestrator.MemVal.str "show me market segmentation", 0, some 0⟩),
          ("routing_decision",
            ⟨"routing_decision",
              Orchestrator.MemVal.dec ["MARKET_SEGMENT_AGENT"] "prior" (some 1), 0, some 0⟩)])]
        0 "s" "and that?" none ([0, 1] : List Nat) none "rendered prompt SHOULD NOT be used")
      = (.reuse ["MARKET_SEGMENT_AGENT"]
          (Orchestrator.pyStrip
            ("Follow-up reuse: reusing previous routing decision to reduce latency. "
              ++ Orchestrator.pyStrip "prior"))
          ((some (1 : Rat)).getD (4/5)),
         (Orchestrator.stmRetrieve
            (Orchestrator.stmRetrieve
              [("s", [("last_query",
                  ⟨"last_query", Orchestrator.MemVal.str "show me market segmentation", 0, some 0⟩),
                ("routing_decision",
                  ⟨"routing_decision",
                    Orchestrator.MemVal.dec ["MARKET_SEGMENT_AGENT"] "prior" (some 1), 0, some 0⟩)])]
              "s" "last_query" 0).2
            "s" "routing_decision" 0).2) :=
  ⟨rfl, by decide,
    (optimized_router_followup_reuse 60 ⟨none, none, none, some "X"⟩
        [("s", [("last_query",
            ⟨"last_query", Orchestrator.MemVal.str "show me market segmentation", 0, some 0⟩),
          ("routing_decision",
            ⟨"routing_decision",
              Orchestrator.MemVal.dec ["MARKET_SEGMENT_AGENT"] "prior" (some 1), 0, some 0⟩)])]
        0 "s" "and that?"
        none ([0, 1] : List Nat) none "rendered prompt SHOULD NOT be used"
        ["MARKET_SEGMENT_AGENT"] "prior" (some 1) rfl (by decide)).1⟩

/-- C10: on the normal routing path (follow-up reuse off or not taken, cache
miss) both policies and the legacy supervisor hand the *rendered routing
prompt* — not the user's query — to `AgentRouter.route_request`; the default
`supervisor_routing` template (lower-cased, with the user query substituted)
contains the router keywords `analyze` and `query` as well as the embedded
user query, and the fallback prompt is never the bare user query. -/
theorem routing_prompt_passed_as_router_query {α : Type}
    (ttl : Int) (st : Orchestrator.SnowflakeAgentSettings)
    (mem : Orchestrator.STMem Orchestrator.MemVal) (now : Rat)
    (sid query ctxStr : String) (ctx : Option (List (String × String)))
    (messages : List α) (ap : Option String) (rendered : String)
    (hcache : (Orchestrator.stmRetrieve mem sid
        ("routing_cache:" ++ Orchestrator.normalize_query_for_cache query) now).1 = none) :
    ((Orchestrator.optimized_router_decide false ttl st mem now sid query ctx
        messages ap rendered).1
      = .routed rendered (Orchestrator.route_request st rendered ctx ap))
    ∧ (Orchestrator.handoffs_route_and_set_active ttl st mem now sid ctx ap rendered).1
      = (rendered, Orchestrator.route_request st rendered ctx ap)
    ∧ Orchestrator.legacy_supervisor_routing_call st none query ctxStr ctx ap
      = ("Analyze the following query and determine the best agent to handle it: " ++ query,
         Orchestrator.route_request st
           ("Analyze the following query and determine the best agent to handle it: " ++ query)
           ctx ap)
    ∧ Orchestrator.get_prompt_for_routing none query ctxStr ≠ query
    ∧ Orchestrator.strContains
        (Orchestrator.pyLower (Orchestrator.get_prompt_for_routing
          (some Orchestrator.supervisor_routing_default) "total sales" "\x7b\x7d"))
        "analyze" = true
    ∧ Orchestrator.strContains
        (Orchestrator.pyLower (Orchestrator.get_prompt_for_routing
          (some Orchestrator.supervisor_routing_default) "total sales" "\x7b\x7d"))
        "query" = true
    ∧ Orchestrator.strContains
        (Orchestrator.pyLower (Orchestrator.get_prompt_for_routing
          (some Orchestrator.supervisor_routing_default) "total sales" "\x7b\x7d"))
        "total sales" = true := by
  refine ⟨?_, ?_, rfl, ?_, by decide, by decide, by decide⟩
  · simp only [Orchestrator.optimized_router_decide, Bool.false_eq_true, if_false, hcache]
    cases hr : Orchestrator.route_request st rendered ctx ap <;> simp [hr]
  · simp only [Orchestrator.handoffs_route_and_set_active]
    cases hr : Orchestrator.route_request st rendered ctx ap with
    | ok r =>
      by_cases hag : r.agents_to_call ≠ [] <;> simp [hag]
    | error e => rfl
  · intro h
    have hlen := congrArg String.length h
    rw [Orchestrator.get_prompt_for_routing, String.length_append] at hlen
    have hz : ("Analyze the following query and determine the best agent to handle it: "
        : String).length = 0 := by omega
    exact absurd hz (by decide)

/-- Witness for C10 at concrete inputs (empty memory, so the cache misses). -/
theorem routing_prompt_passed_as_router_query_witness :
    ((Orchestrator.stmRetrieve ([] : Orchestrator.STMem Orchestrator.MemVal) "s"
        ("routing_cache:" ++ Orchestrator.normalize_query_for_cache "total sales") 0).1 = none)
    ∧ ((Orchestrator.optimized_router_decide false 60 ⟨some "A_AG", some "S_AG", none, none⟩
        ([] : Orchestrator.STMem Orchestrator.MemVal) 0 "s" "total sales" none
        ([] : List Nat) none "the rendered prompt").1
      = .routed "the rendered prompt"
          (Orchestrator.route_request ⟨some "A_AG", some "S_AG", none, none⟩
            "the rendered prompt" none none)) :=
  ⟨rfl,
    (routing_prompt_passed_as_router_query 60 ⟨some "A_AG", some "S_AG", none, none⟩
      ([] : Orchestrator.STMem Orchestrator.MemVal) 0 "s" "total sales" "ctx" none
      ([] : List Nat) none "the rendered prompt" rfl).1⟩

namespace Orchestrator

/-! ## Planner JSON extraction (src/langgraph/supervisor/llm_client.py:92-103)

`extract_json` first tries `json.loads` on the whole text, then the greedy
DOTALL regex `\x7b.*\x7d` (first `{` to last `}`), then raises.  `json.loads`
is stdlib; it is modelled by a recursive-descent parser over the JSON subset
this system produces (null / booleans / integers / strings with the common
escapes / arrays / objects, later duplicate object keys overwriting). -/

/-- JSON values. -/
inductive JVal where
  | null : JVal
  | bool : Bool → JVal
  | num : Int → JVal
  | str : String → JVal
  | arr : List JVal → JVal
  | obj : List (String × JVal) → JVal
  deriving Repr

/-- JSON whitespace (as in Python's `json` module). -/
def isJsonWS (c : Char) : Bool :=
  c = ' ' || c = '\t' || c = '\n' || c = '\r'

/-- Drop leading JSON whitespace. -/
def skipWs (cs : List Char) : List Char :=
  cs.dropWhile isJsonWS

/-- JSON string escapes (`\u` sequences are not produced by this system and
are rejected by the model). -/
def escChar (c : Char) : Option Char :=
  if c = '"' || c = '\\' || c = '/' then some c
  else if c = 'n' then some '\n'
  else if c = 't' then some '\t'
  else if c = 'r' then some '\r'
  else if c = 'b' then some (Char.ofNat 0x08)
  else if c = 'f' then some (Char.ofNat 0x0c)
  else none

/-- Parse the remainder of a JSON string (after the opening quote). -/
def parseStrAux : Nat → List Char → List Char → Option (String × List Char)
  | 0, _, _ => none
  | _ + 1, _, [] => none
  | fuel + 1, acc, c :: cs =>
    if c = '"' then some (String.mk acc.reverse, cs)
    else if c = '\\' then
      match cs with
      | [] => none
      | e :: cs' =>
        match escChar e with
        | some d => parseStrAux fuel (d :: acc) cs'
        | none => none
    else parseStrAux fuel (c :: acc) cs

/-- Consume a run of decimal digits. -/
def digitsAux : Nat → List Char → Nat × List Char
  | acc, [] => (acc, [])
  | acc, c :: cs =>
    if c.isDigit then digitsAux (acc * 10 + (c.toNat - 48)) cs
    else (acc, c :: cs)

/-- Parse a JSON integer (optional minus sign, at least one digit). -/
def parseNum : List Char → Option (Int × List Char)
  | [] => none
  | '-' :: rest =>
    match rest with
    | c :: _ =>
      if c.isDigit then
        let (n, r) := digitsAux 0 rest
        some (-(n : Int), r)
      else none
    | [] => none
  | c :: cs =>
    if c.isDigit then
      let (n, r) := digitsAux 0 (c :: cs)
      some ((n : Int), r)
    else none

mutual

/-- Parse one JSON value. -/
def parseVal : Nat → List Char → Option (JVal × List Char)
  | 0, _ => none
  | fuel + 1, cs0 =>
    let cs := skipWs cs0
    if isPrefixL "null".toList cs then some (.null, cs.drop 4)
    else if isPrefixL "true".toList cs then some (.bool true, cs.drop 4)
    else if isPrefixL "false".toList cs then some (.bool false, cs.drop 5)
    else
      match cs with
      | [] => none
      | '"' :: rest =>
        match parseStrAux (rest.length + 1) [] rest with
        | some (s, r) => some (.str s, r)
        | none => none
      | '[' :: rest =>
        match skipWs rest with
        | ']' :: r => some (.arr [], r)
        | _ =>
          match parseArrItems fuel rest with
          | some (vs, r) => some (.arr vs, r)
          | none => none
      | '{' :: rest =>
        match skipWs rest with
        | '}' :: r => some (.obj [], r)
        | _ =>
          match parseObjItems fuel rest [] with
          | some (kvs, r) => some (.obj kvs, r)
          | none => none
      | _ =>
        match parseNum cs with
        | some (n, r) => some (.num n, r)
        | none => none

/-- Parse comma-separated array items up to the closing bracket. -/
def parseArrItems : Nat → List Char → Option (List JVal × List Char)
  | 0, _ => none
  | fuel + 1, cs =>
    match parseVal fuel cs with
    | none => none
    | some (v, r) =>
      match skipWs r with
      | ',' :: r2 =>
        match parseArrItems fuel r2 with
        | some (vs, r3) => some (v :: vs, r3)
        | none => none
      | ']' :: r2 => some ([v], r2)
      | _ => none

/-- Parse comma-separated `"key": value` pairs up to the closing brace
(later duplicates overwrite, as in Python dicts). -/
def parseObjItems : Nat → List Char → List (String × JVal) →
    Option (List (String × JVal) × List Char)
  | 0, _, _ => none
  | fuel + 1, cs, acc =>
    match skipWs cs with
    | '"' :: rest =>
      match parseStrAux (rest.length + 1) [] rest with
      | none => none
      | some (k, r) =>
        match skipWs r with
        | ':' :: r2 =>
          match parseVal fuel r2 with
          | none => none
          | some (v, r3) =>
            match skipWs r3 with
            | ',' :: r5 => parseObjItems fuel r5 (alSet acc k v)
            | '}' :: r5 => some (alSet acc k v, r5)
            | _ => none
        | _ => none
    | _ => none

end

/-- `json.loads` model: parse one value and require only whitespace after. -/
def jsonLoads (s : String) : Option JVal :=
  match parseVal (4 * s.toList.length + 16) s.toList with
  | some (v, rest) => if skipWs rest = [] then some v else none
  | none => none

/-- The span matched by the greedy DOTALL regex `\x7b.*\x7d`: from the first
`{` to the last `}` (when a `}` follows the first `{`). -/
def firstBraceGreedySpan (s : String) : Option String :=
  let cs := s.toList
  match cs.findIdx? (· = '{') with
  | none => none
  | some i =>
    let after := cs.drop (i + 1)
    match after.reverse.findIdx? (· = '}') with
    | none => none
    | some k => some (String.mk ('{' :: after.take (after.length - k)))

/-- The claim's reading — "the first top-level `{...}` span" — as a balanced
brace scan from the first `{` (used only to compare against the source's
greedy regex). -/
def firstBalancedSpanAux : Nat → List Char → List Char → Option (List Char)
  | _, _, [] => none
  | d, acc, c :: cs =>
    if c = '{' then firstBalancedSpanAux (d + 1) (c :: acc) cs
    else if c = '}' then
      if d = 1 then some (c :: acc).reverse
      else firstBalancedSpanAux (d - 1) (c :: acc) cs
    else firstBalancedSpanAux d (c :: acc) cs

/-- First balanced `{...}` span of the text (the spec-worded extraction). -/
def firstBalancedBraceSpan (s : String) : Option String :=
  match s.toList.dropWhile (· ≠ '{') with
  | [] => none
  | l =>
    match firstBalancedSpanAux 0 [] l with
    | some cs => some (String.mk cs)
    | none => none

/-- `PlannerLLMClient.extract_json`: strict parse, else parse the greedy
`{...}` span, else raise.  When no span exists the `ValueError` message names
the offending text; when a span exists but fails to parse, the uncaught
`json.JSONDecodeError` carries only a position message. -/
def extract_json (text : String) : Except String JVal :=
  match jsonLoads text with
  | some v => .ok v
  | none =>
    match firstBraceGreedySpan text with
    | none => .error ("Planner returned invalid JSON: " ++ text)
    | some span =>
      match jsonLoads span with
      | some v => .ok v
      | none => .error "JSONDecodeError: Extra data"

end Orchestrator

/-- C8 counterexample: on `"\x7b\"a\": 1\x7d x \x7b\"b\": 2\x7d"` strict parsing fails and
the *first top-level* `{...}` span (`{"a": 1}`, per the claim's wording) parses
fine — yet `extract_json` raises, because the source's greedy regex grabs from
the first `{` to the *last* `}`, which is not valid JSON. -/
theorem extract_json_first_span_counterexample :
    Orchestrator.extract_json "\x7b\"a\": 1\x7d x \x7b\"b\": 2\x7d"
      = .error "JSONDecodeError: Extra data"
    ∧ Orchestrator.firstBalancedBraceSpan "\x7b\"a\": 1\x7d x \x7b\"b\": 2\x7d" = some "\x7b\"a\": 1\x7d"
    ∧ Orchestrator.jsonLoads "\x7b\"a\": 1\x7d" = some (.obj [("a", .num 1)])
    ∧ Orchestrator.firstBraceGreedySpan "\x7b\"a\": 1\x7d x \x7b\"b\": 2\x7d"
      = some "\x7b\"a\": 1\x7d x \x7b\"b\": 2\x7d"
    ∧ Orchestrator.jsonLoads "\x7b\"a\": 1\x7d x \x7b\"b\": 2\x7d" = none :=
  ⟨rfl, rfl, rfl, rfl, rfl⟩

/-- C8 amended: `extract_json` first attempts strict parsing and returns the
parsed value; on failure it takes the greedy span from the first `{` to the
last `}` and parses that; with no such span it fails naming the offending
text, and with an unparsable span it fails with the JSON parse error (which
does not name the text).  A single JSON object surrounded by prose is
returned parsed, and text with no JSON object fails. -/
theorem extract_json_behavior (text : String) :
    (∀ v, Orchestrator.jsonLoads text = some v →
      Orchestrator.extract_json text = .ok v)
    ∧ (Orchestrator.jsonLoads text = none →
       Orchestrator.firstBraceGreedySpan text = none →
       Orchestrator.extract_json text
         = .error ("Planner returned invalid JSON: " ++ text))
    ∧ (∀ span, Orchestrator.jsonLoads text = none →
       Orchestrator.firstBraceGreedySpan text = some span →
       Orchestrator.extract_json text
         = (match Orchestrator.jsonLoads span with
            | some v => Except.ok v
            | none => Except.error "JSONDecodeError: Extra data"))
    ∧ Orchestrator.extract_json
        "Here is the plan:\n\x7b\"1\": \x7b\"agent\": \"A\", \"action\": \"do X\"\x7d\x7d\nThanks"
        = .ok (.obj [("1", .obj [("agent", .str "A"), ("action", .str "do X")])])
    ∧ Orchestrator.extract_json "not json at all"
        = .error "Planner returned invalid JSON: not json at all" := by
  refine ⟨?_, ?_, ?_, rfl, rfl⟩
  · intro v h
    simp only [Orchestrator.extract_json, h]
  · intro h1 h2
    simp only [Orchestrator.extract_json, h1, h2]
  · intro span h1 h2
    simp only [Orchestrator.extract_json, h1, h2]

/-- Witness for C8's amended theorem: a strictly parsable input is returned
parsed by the first branch. -/
theorem extract_json_behavior_witness :
    Orchestrator.jsonLoads "\x7b\"k\": \"v\"\x7d" = some (.obj [("k", .str "v")])
    ∧ Orchestrator.extract_json "\x7b\"k\": \"v\"\x7d" = .ok (.obj [("k", .str "v")]) :=
  ⟨rfl, (extract_json_behavior "\x7b\"k\": \"v\"\x7d").1 (.obj [("k", .str "v")]) rfl⟩

namespace Orchestrator

/-! ## Supervisor plan loop (src/langgraph/supervisor/graph.py)

Only the fields read by `advance_plan` / `should_continue_plan` are modelled;
`plan` is the step-number-string → `{agent, action}` dict. -/

/-- One plan step (`{"agent": ..., "action": ...}`). -/
structure PlanStep where
  agent : Option String
  action : Option String
  deriving Repr, DecidableEq

/-- The `SupervisorState` fields driving the planning loop. -/
structure GraphState where
  status : String
  replan_flag : Bool
  plan : List (String × PlanStep)
  plan_current_step : Int
  current_step : String
  deriving Repr, DecidableEq

/-- `int(state.get("plan_current_step") or 1)` (0/absent falls back to 1). -/
def stepOf (s : GraphState) : Int :=
  if s.plan_current_step ≠ 0 then s.plan_current_step else 1

/-- `advance_plan` (graph.py:335-348, reading the statements in source order;
line 348's `return state` is mis-indented in the source): on a replan keep the
index; otherwise advance to step `current+1` only when that key exists. -/
def advance_plan (s : GraphState) : GraphState :=
  if s.replan_flag then { s with current_step := "advance_plan_replan" }
  else
    let step := stepOf s
    if (alGet s.plan (toString (step + 1))).isSome then
      { s with plan_current_step := step + 1, current_step := "advance_plan" }
    else { s with current_step := "advance_plan" }

/-- `should_continue_plan` (graph.py:610-620): failed → handle_error;
replan flag → replan; the *current* step key still in the plan → continue;
otherwise → done. -/
def should_continue_plan (s : GraphState) : String :=
  if s.status = "failed" then "handle_error"
  else if s.replan_flag then "replan"
  else if (alGet s.plan (toString (stepOf s))).isSome then "continue"
  else "done"

/-- The effect of a successful `execute_plan` (executor JSON with
`replan: false`) followed by `invoke_agents` and `combine_responses` on the
modelled fields: `replan_flag` is cleared and `current_step` updated; the
plan, step index and status are untouched (graph.py:138-332). -/
def execute_invoke_combine_ok (s : GraphState) : GraphState :=
  { s with replan_flag := false, current_step := "combine_responses" }

/-- The `advance_plan` → branch → (`execute_plan` → … ) loop of the compiled
graph, with `exec` standing for the execute/invoke/combine passage.  Returns
the branch taken out of the loop and the state, or `none` when the fuel runs
out with the loop still going. -/
def planLoop (exec : GraphState → GraphState) : Nat → GraphState → Option (String × GraphState)
  | 0, _ => none
  | fuel + 1, s =>
    let s' := advance_plan s
    match should_continue_plan s' with
    | "continue" => planLoop exec fuel (exec s')
    | br => some (br, s')

end Orchestrator

/-- Loop invariant for C1: not failed, no replan requested, current step at
least 1 and still a key of the plan. -/
def PlanInv (s : Orchestrator.GraphState) : Prop :=
  s.status ≠ "failed" ∧ s.replan_flag = false ∧ 1 ≤ s.plan_current_step
  ∧ (Orchestrator.alGet s.plan (toString s.plan_current_step)).isSome = true

theorem advance_plan_preserves_inv (s : Orchestrator.GraphState) (h : PlanInv s) :
    PlanInv (Orchestrator.advance_plan s)
    ∧ (Orchestrator.advance_plan s).status = s.status
    ∧ (Orchestrator.advance_plan s).replan_flag = s.replan_flag
    ∧ (Orchestrator.advance_plan s).plan = s.plan := by
  obtain ⟨h1, h2, h3, h4⟩ := h
  have hstep : Orchestrator.stepOf s = s.plan_current_step := by
    simp only [Orchestrator.stepOf]
    rw [if_pos (by omega)]
  simp only [Orchestrator.advance_plan, h2, Bool.false_eq_true, if_false, hstep]
  by_cases hnext :
      (Orchestrator.alGet s.plan (toString (s.plan_current_step + 1))).isSome = true
  · rw [if_pos hnext]
    exact ⟨⟨h1, rfl, (by omega : 1 ≤ s.plan_current_step + 1), hnext⟩, rfl, rfl, rfl⟩
  · rw [if_neg (by simpa using hnext)]
    exact ⟨⟨h1, rfl, h3, h4⟩, rfl, rfl, rfl⟩

theorem should_continue_plan_of_inv (s : Orchestrator.GraphState) (h : PlanInv s) :
    Orchestrator.should_continue_plan s = "continue" := by
  obtain ⟨h1, h2, h3, h4⟩ := h
  have hstep : Orchestrator.stepOf s = s.plan_current_step := by
    simp only [Orchestrator.stepOf]
    rw [if_pos (by omega)]
  simp only [Orchestrator.should_continue_plan, if_neg h1, h2, Bool.false_eq_true,
    if_false, hstep, h4, if_true]

theorem planLoop_none_of_inv (exec : Orchestrator.GraphState → Orchestrator.GraphState)
    (hexec : ∀ s, (exec s).status = s.status ∧ (exec s).replan_flag = false
      ∧ (exec s).plan = s.plan ∧ (exec s).plan_current_step = s.plan_current_step) :
    ∀ (fuel : Nat) (s : Orchestrator.GraphState), PlanInv s →
      Orchestrator.planLoop exec fuel s = none := by
  intro fuel
  induction fuel with
  | zero => intro s _; rfl
  | succ n ih =>
    intro s hs
    obtain ⟨hinv', hst, hrp, hpl⟩ := advance_plan_preserves_inv s hs
    have hcont := should_continue_plan_of_inv _ hinv'
    have hinv2 : PlanInv (exec (Orchestrator.advance_plan s)) := by
      obtain ⟨e1, e2, e3, e4⟩ := hexec (Orchestrator.advance_plan s)
      obtain ⟨i1, i2, i3, i4⟩ := hinv'
      exact ⟨e1 ▸ i1, e2, e4 ▸ i3, by rw [e3, e4]; exact i4⟩
    simp only [Orchestrator.planLoop, hcont]
    exact ih _ hinv2

/-- C1 (code evaluation at the failing input): with the one-step plan
`{"1": {agent: AGENT_A, action: do X}}` and an executor that never requests a
replan, `should_continue_plan` evaluates to `"continue"` — never `"done"` —
after the step has been executed and advanced, and the
`advance_plan → execute_plan` loop never reaches `update_memory` for any
amount of fuel: `advance_plan` never moves `plan_current_step` past the last
step and the branch tests the *current* step's presence, so the `done` branch
is unreachable for a non-empty plan.  (Independently, `advance_plan`'s final
`return state` at graph.py:348 is mis-indented, an `IndentationError`.) -/
theorem supervisor_plan_loop_never_terminates :
    Orchestrator.should_continue_plan
        (Orchestrator.advance_plan
          ⟨"processing", false, [("1", ⟨some "AGENT_A", some "do X"⟩)], 1,
            "combine_responses"⟩)
      = "continue"
    ∧ Orchestrator.should_continue_plan
        (Orchestrator.advance_plan
          ⟨"processing", false, [("1", ⟨some "AGENT_A", some "do X"⟩)], 1,
            "combine_responses"⟩)
      ≠ "done"
    ∧ ∀ fuel : Nat,
      Orchestrator.planLoop Orchestrator.execute_invoke_combine_ok fuel
        ⟨"processing", false, [("1", ⟨some "AGENT_A", some "do X"⟩)], 1,
          "combine_responses"⟩
      = none := by
  refine ⟨rfl, by decide, ?_⟩
  intro fuel
  apply planLoop_none_of_inv
  · intro s
    exact ⟨rfl, rfl, rfl, rfl⟩
  · refine ⟨by decide, rfl, by decide, ?_⟩
    rfl

namespace Orchestrator

/-! ## Snowflake agent invocation error handling

`CortexAgentGateway.invoke_agent` (src/snowflake_cortex/gateway/
agent_gateway.py:221-343) versus the supervisor-side `_invoke_snowflake_agent`
(src/langgraph/supervisor/graph.py:495-537).  The HTTP transport (httpx) is
abstracted as the outcome of the network call. -/

/-- Outcome of `_post_sse` / the supervisor's gateway POST: the parsed
final text with the event count, or a transport (`httpx.HTTPError`) failure. -/
inductive TransportOutcome where
  | ok : String → Nat → TransportOutcome
  | httpError : String → TransportOutcome
  deriving Repr, DecidableEq

/-- The gateway client's result dictionary (sources is always `[]`). -/
structure GatewayResult where
  response : String
  agent_name : String
  session_id : String
  raw_events_count : Nat
  sources : List String
  deriving Repr, DecidableEq

/-- `CortexAgentGateway.invoke_agent`, error-propagation view: an
`httpx.HTTPError` from the Agents Run call is re-raised as
`SnowflakeCortexError("Failed to invoke Cortex agent: ...")`; on success the
result record is built (empty text replaced by a placeholder).  TruLens
logging failures are swallowed and do not affect the result. -/
def gateway_invoke_agent (transport : TransportOutcome)
    (agent_name session_id : String) : Except String GatewayResult :=
  match transport with
  | .httpError e => .error ("Failed to invoke Cortex agent: " ++ e)
  | .ok text n =>
    .ok ⟨if text = "" then "(no response text parsed from SSE)" else text,
      agent_name, session_id, n, []⟩

/-- Python `query[:50]`. -/
def pyTake50 (s : String) : String := String.mk (s.toList.take 50)

/-- One agent response as collected by the supervisor. -/
structure SupaAgentResult where
  agent_name : String
  response : String
  sources : List String
  deriving Repr, DecidableEq

/-- `_invoke_snowflake_agent` (graph.py:495-537): POST to the gateway's
`/agents/invoke`; on *any* exception the failure is logged as a warning and a
fabricated fallback response is returned — the function never raises. -/
def invoke_snowflake_agent (httpCall : Except String (String × List String))
    (agent_name query : String) : SupaAgentResult :=
  match httpCall with
  | .ok (resp, srcs) => ⟨agent_name, resp, srcs⟩
  | .error _ =>
    ⟨agent_name,
      "Response from " ++ agent_name ++ " agent for query: " ++ pyTake50 query ++ "...",
      []⟩

end Orchestrator

/-- C2 counterexample: a failing supervisor-to-gateway call for
`SALES_AGENT` is not raised: `_invoke_snowflake_agent` returns a fabricated
substitute response text. -/
theorem invoke_snowflake_agent_fallback_counterexample :
    Orchestrator.invoke_snowflake_agent (.error "connection refused")
        "SALES_AGENT" "total sales"
      = ⟨"SALES_AGENT",
          "Response from SALES_AGENT agent for query: total sales...", []⟩
    ∧ (Orchestrator.invoke_snowflake_agent (.error "connection refused")
        "SALES_AGENT" "total sales").response ≠ "" := by
  constructor
  · show _ = (⟨_, _, _⟩ : Orchestrator.SupaAgentResult)
    simp only [Orchestrator.invoke_snowflake_agent]
    have : Orchestrator.pyTake50 "total sales" = "total sales" := by decide
    rw [this]
    decide
  · decide

/-- C2 amended: the Cortex Agents Run client raises `SnowflakeCortexError` on
transport failure; but the supervisor's gateway call swallows every failure
and substitutes a fallback response text, and passes through the gateway
response unchanged on success. -/
theorem snowflake_invocation_error_propagation
    (e agent_name session_id query resp : String) (srcs : List String) (n : Nat)
    (text : String) :
    Orchestrator.gateway_invoke_agent (.httpError e) agent_name session_id
      = .error ("Failed to invoke Cortex agent: " ++ e)
    ∧ Orchestrator.invoke_snowflake_agent (.error e) agent_name query
      = ⟨agent_name,
          "Response from " ++ agent_name ++ " agent for query: "
            ++ Orchestrator.pyTake50 query ++ "...", []⟩
    ∧ Orchestrator.invoke_snowflake_agent (.ok (resp, srcs)) agent_name query
      = ⟨agent_name, resp, srcs⟩
    ∧ (text ≠ "" →
      Orchestrator.gateway_invoke_agent (.ok text n) agent_name session_id
        = .ok ⟨text, agent_name, session_id, n, []⟩) := by
  refine ⟨rfl, rfl, rfl, ?_⟩
  intro ht
  simp only [Orchestrator.gateway_invoke_agent, if_neg ht]

/-- Witness for C2's amended theorem (its last conjunct has a hypothesis):
non-empty response text is passed through unchanged. -/
theorem snowflake_invocation_error_propagation_witness :
    ("answer" : String) ≠ ""
    ∧ Orchestrator.gateway_invoke_agent (.ok "answer" 3) "SALES_AGENT" "s1"
      = .ok ⟨"answer", "SALES_AGENT", "s1", 3, []⟩ :=
  ⟨by decide,
    (snowflake_invocation_error_propagation "e" "SALES_AGENT" "s1" "q" "r" [] 3
      "answer").2.2.2 (by decide)⟩
